import Mathlib

set_option autoImplicit false

/-!
Shallow embedding of the stash scale/controller core
(pkg scale `ScaleDownWorkload` / `ScaleUpWorkload` / `waitUntilScaledDown`,
pkg controller `initResticWatcher` / `EnsureSidecar`,
pkg rbac `getSidecarRoleBindingName` / `ensureSidecarRoleBindingDeleted`,
pkg util `HasOldReplicaAnnotation`), together with theorems settling the
frozen claims about it.

Go `map[string]string` annotation maps are modelled as
`Option (List (String × String))` (`none` is the nil map), machine integers
as `Int`, fallible calls as `Except String`.  The cluster visible to one
run of the batch scaler is a record of the per-kind object lists returned
by the List calls; the label selector of the run is abstracted as a
boolean `matches` flag on each object, exactly the role it plays in the
source (each List call returns the objects whose labels satisfy it).
-/

/-- Workload kind constant from the external apimachinery module:
the Kubernetes kind name of a Deployment. -/
def KindDeployment : String := "Deployment"

/-- Kind constant: ReplicationController. -/
def KindReplicationController : String := "ReplicationController"

/-- Kind constant: ReplicaSet. -/
def KindReplicaSet : String := "ReplicaSet"

/-- Kind constant: StatefulSet. -/
def KindStatefulSet : String := "StatefulSet"

/-- Kind constant: DaemonSet. -/
def KindDaemonSet : String := "DaemonSet"

/-- The five workload kinds the controller supports. -/
def supportedKinds : List String :=
  [KindDeployment, KindReplicationController, KindReplicaSet,
   KindStatefulSet, KindDaemonSet]

/-- `apis.AnnotationOldReplica`, the saved-replica-count annotation key
(the spec's `previous-replica-count` side channel).  The exact literal
lives in the external apimachinery module; every use here is symbolic. -/
def AnnotationOldReplica : String := "old-replica"

/-! ## Go string-map (annotations) model -/

/-- First-match lookup in an association list, the read of a Go map. -/
def lookupA : List (String × String) → String → Option String
  | [], _ => none
  | (k', v) :: t, k => if k' == k then some v else lookupA t k

/-- Remove every entry with the given key. -/
def eraseKey (k : String) (l : List (String × String)) : List (String × String) :=
  l.filter (fun p => !(p.1 == k))

/-- Read of a possibly-nil Go map (`m[k]` with `m == nil` giving no entry). -/
def getAnn (a : Option (List (String × String))) (k : String) : Option String :=
  match a with
  | none => none
  | some l => lookupA l k

/-- `if m == nil { m = make(...) }; m[k] = v`: the write always yields a
non-nil map binding `k` to `v` and leaving other keys unchanged. -/
def setAnn (a : Option (List (String × String))) (k v : String) :
    Option (List (String × String)) :=
  some ((k, v) :: eraseKey k (match a with | none => [] | some l => l))

/-- Go `delete(m, k)`: a no-op on a nil map, otherwise removes the key. -/
def delAnn (a : Option (List (String × String))) (k : String) :
    Option (List (String × String)) :=
  match a with
  | none => none
  | some l => some (eraseKey k l)

/-- `meta.HasKey` from the external kmodules helper: false on a nil map,
otherwise key presence. -/
def hasKey (a : Option (List (String × String))) (k : String) : Bool :=
  (getAnn a k).isSome

/-! ## strconv -/

/-- Decimal digit accumulation used by the `strconv.Atoi` model. -/
def parseDigitsAux : List Char → Nat → Option Nat
  | [], acc => some acc
  | c :: t, acc =>
      if c.isDigit then parseDigitsAux t (acc * 10 + (c.toNat - 48)) else none

/-- Parse a non-empty all-digit string; `none` otherwise. -/
def parseDigits : List Char → Option Nat
  | [] => none
  | l => parseDigitsAux l 0

/-- Model of Go `strconv.Atoi`: optional sign followed by decimal
digits; a value outside the 64-bit int range of Go's `int` is the
ErrRange error (Atoi also returns the clamped value then, but every
caller here discards it because the error is non-nil). -/
def goAtoi (s : String) : Except String Int :=
  match s.toList with
  | '-' :: rest =>
      match parseDigits rest with
      | some n =>
          if (n : Int) ≤ 9223372036854775808 then .ok (-(n : Int))
          else .error "value out of range"
      | none => .error "invalid syntax"
  | '+' :: rest =>
      match parseDigits rest with
      | some n =>
          if (n : Int) ≤ 9223372036854775807 then .ok (n : Int)
          else .error "value out of range"
      | none => .error "invalid syntax"
  | l =>
      match parseDigits l with
      | some n =>
          if (n : Int) ≤ 9223372036854775807 then .ok (n : Int)
          else .error "value out of range"
      | none => .error "invalid syntax"

/-- Model of Go `strconv.Itoa` on the (int-widened) replica count. -/
def goItoa (i : Int) : String := toString i

/-- `meta_util.GetIntValue` from the external kmodules helper: error when
the key is absent, otherwise `strconv.Atoi` of the stored string. -/
def getIntValue (a : Option (List (String × String))) (k : String) :
    Except String Int :=
  match getAnn a k with
  | none => .error "key not found"
  | some v => goAtoi v

/-! ## Workload and cluster model -/

/-- One entry of a Kubernetes owner-reference chain (only the kind is
inspected by this code). -/
structure OwnerRef where
  kind : String
deriving DecidableEq, Repr

/-- A scalable workload object as the scale core sees it: name,
`*Spec.Replicas`, the annotation map, its owner references, and whether
its labels match the selector of the run at hand. -/
structure W where
  name : String
  replicas : Int
  annotations : Option (List (String × String))
  ownerRefs : List OwnerRef
  selMatch : Bool
deriving DecidableEq, Repr

/-- A pod: only its owner references and selector membership matter. -/
structure Pod where
  name : String
  ownerRefs : List OwnerRef
  selMatch : Bool
deriving DecidableEq, Repr

/-- The namespace-local cluster state consumed by one batch run: the
per-kind lists the List calls return. -/
structure Cluster where
  deployments : List W
  replicationControllers : List W
  replicaSets : List W
  statefulSets : List W
  daemonSets : List W
  pods : List Pod
deriving DecidableEq, Repr

/-- `apps_util.IsOwnedByDeployment` (external kmodules helper): some owner
reference has kind Deployment. -/
def isOwnedByDeployment (refs : List OwnerRef) : Bool :=
  refs.any (fun r => r.kind == KindDeployment)

/-- `isDaemonOrStatefulSetPod` (src/unnamed/part_000): some owner
reference has kind StatefulSet or DaemonSet. -/
def isDaemonOrStatefulSetPod (refs : List OwnerRef) : Bool :=
  refs.any (fun r => r.kind == KindStatefulSet || r.kind == KindDaemonSet)

/-! ## ScaleDownWorkload (src/unnamed/part_000, lines 64-204) -/

/-- The scale-down patch applied to each listed deployment / replication
controller: unconditionally write the current replica count into the
saved-count annotation, then zero the replicas.  Objects outside the
selector are not listed, hence untouched. -/
def scaleDownW (w : W) : W :=
  if w.selMatch then
    { w with
      annotations := setAnn w.annotations AnnotationOldReplica (goItoa w.replicas)
      replicas := 0 }
  else w

/-- The scale-down patch for replica-sets: identical, but a replica-set
owned by a deployment is skipped (`!apps_util.IsOwnedByDeployment`). -/
def scaleDownRS (w : W) : W :=
  if w.selMatch && !isOwnedByDeployment w.ownerRefs then
    { w with
      annotations := setAnn w.annotations AnnotationOldReplica (goItoa w.replicas)
      replicas := 0 }
  else w

/-- Lines 64-138: the ScalingDown phase over all three scalable kinds. -/
def scaleDownPhase (c : Cluster) : Cluster :=
  { c with
    deployments := c.deployments.map scaleDownW
    replicationControllers := c.replicationControllers.map scaleDownW
    replicaSets := c.replicaSets.map scaleDownRS }

/-- The scale-up patch of the batch run: replicas set to the literal
`OneReplica` (annotations untouched). -/
def scaleUpOneW (w : W) : W :=
  if w.selMatch then { w with replicas := 1 } else w

/-- Batch scale-up patch for replica-sets, again skipping
deployment-owned ones. -/
def scaleUpOneRS (w : W) : W :=
  if w.selMatch && !isOwnedByDeployment w.ownerRefs then { w with replicas := 1 }
  else w

/-- Lines 146-188: the ScalingUp phase of the batch run. -/
def scaleUpPhase (c : Cluster) : Cluster :=
  { c with
    deployments := c.deployments.map scaleUpOneW
    replicationControllers := c.replicationControllers.map scaleUpOneW
    replicaSets := c.replicaSets.map scaleUpOneRS }

/-- Lines 190-201: delete every selector-matching pod owned by a
daemon-set or stateful-set (deletion errors are only logged). -/
def deletePodsPhase (c : Cluster) : Cluster :=
  { c with
    pods := c.pods.filter (fun p => !(p.selMatch && isDaemonOrStatefulSetPod p.ownerRefs)) }

/-- `waitUntilScaledDown` (lines 277-290): one poll iteration succeeds
exactly when every selector-matching pod is daemon-set- or
stateful-set-owned.  In this static model the cluster does not change
between iterations, so the first iteration decides the whole bounded
poll: `true` is success, `false` is the timeout error. -/
def waitUntilScaledDown (c : Cluster) : Bool :=
  (c.pods.filter (fun p => p.selMatch)).all
    (fun p => isDaemonOrStatefulSetPod p.ownerRefs)

/-- `ScaleDownWorkload` (lines 64-204): scale down, wait (a failed wait is
only logged, lines 140-144, so the run continues either way), batch scale
up to one replica, delete daemon-set/stateful-set pods. -/
def ScaleDownWorkload (c : Cluster) : Cluster :=
  let afterDown := scaleDownPhase c
  let _drained := waitUntilScaledDown afterDown
  deletePodsPhase (scaleUpPhase afterDown)

/-! ## ScaleUpWorkload (src/unnamed/part_000, lines 206-275) -/

/-- `opt.Workload`: the typed reference naming the workload to restore. -/
structure WorkloadRef where
  kind : String
  name : String
deriving DecidableEq, Repr

/-- Go's `int32(x)` conversion applied to the parsed count
(`types.Int32P(int32(replica))`): two's-complement wrap to 32 bits. -/
def toInt32 (i : Int) : Int :=
  let u := i % 4294967296
  if u < 2147483648 then u else u - 4294967296

/-- The restore patch: set replicas to the saved value narrowed through
`int32(replica)` and delete the saved-count annotation. -/
def restorePatch (replica : Int) (w : W) : W :=
  { w with
    replicas := toInt32 replica
    annotations := delAnn w.annotations AnnotationOldReplica }

/-- Patch-by-name: apply the mutation to the named object, leave the
rest alone. -/
def patchByName (l : List W) (nm : String) (f : W → W) : List W :=
  l.map (fun w => if w.name == nm then f w else w)

/-- The per-kind body of `ScaleUpWorkload`, identical for the three
scalable kinds in the source: Get the object, `GetIntValue` of the
saved-count annotation (error when absent or unparsable), then patch
replicas back and delete the annotation. -/
def restoreWorkload (l : List W) (nm : String) : Except String (List W) :=
  match l.find? (fun w => w.name == nm) with
  | none => .error "not found"
  | some obj =>
      match getIntValue obj.annotations AnnotationOldReplica with
      | .error e => .error e
      | .ok replica => .ok (patchByName l nm (restorePatch replica))

/-- `ScaleUpWorkload` (lines 206-275): kind dispatch.  StatefulSet and
DaemonSet do nothing (they were never scaled down); an unknown kind is an
error. -/
def ScaleUpWorkload (c : Cluster) (ref : WorkloadRef) : Except String Cluster :=
  if ref.kind == KindDeployment then
    match restoreWorkload c.deployments ref.name with
    | .error e => .error e
    | .ok l => .ok { c with deployments := l }
  else if ref.kind == KindReplicationController then
    match restoreWorkload c.replicationControllers ref.name with
    | .error e => .error e
    | .ok l => .ok { c with replicationControllers := l }
  else if ref.kind == KindReplicaSet then
    match restoreWorkload c.replicaSets ref.name with
    | .error e => .error e
    | .ok l => .ok { c with replicaSets := l }
  else if ref.kind == KindStatefulSet then .ok c
  else if ref.kind == KindDaemonSet then .ok c
  else .error "Unknown workload type"

/-! ## HasOldReplicaAnnot (src/pkg/util/kubernetes.go, lines 359-391) -/

/-- `HasOldReplicaAnnot` embeds the source's saved-count probe (named
after the old-replica annotation): for the three scalable kinds, Get the
object (a Get error is `log.Fatalln`, i.e. process exit, modelled as
`none`) and report `meta.HasKey` of its annotations; for StatefulSet and
DaemonSet the switch does nothing, so the nil `workloadAnnotation` makes
the final `HasKey` false; an unrecognized kind returns false directly. -/
def HasOldReplicaAnnot (c : Cluster) (ref : WorkloadRef) : Option Bool :=
  if ref.kind == KindDeployment then
    match c.deployments.find? (fun w => w.name == ref.name) with
    | none => none
    | some w => some (hasKey w.annotations AnnotationOldReplica)
  else if ref.kind == KindReplicationController then
    match c.replicationControllers.find? (fun w => w.name == ref.name) with
    | none => none
    | some w => some (hasKey w.annotations AnnotationOldReplica)
  else if ref.kind == KindReplicaSet then
    match c.replicaSets.find? (fun w => w.name == ref.name) with
    | none => none
    | some w => some (hasKey w.annotations AnnotationOldReplica)
  else if ref.kind == KindStatefulSet then
    some (hasKey none AnnotationOldReplica)
  else if ref.kind == KindDaemonSet then
    some (hasKey none AnnotationOldReplica)
  else some false

/-! ## Restic watch handlers (src/pkg/controller/restics.go, lines 75-129)
and the reconciliation enqueue (`EnsureSidecar`, lines 245-315) -/

/-- A Restic policy object.  `IsValid` lives in the external apimachinery
module (selector/schedule validation) and is abstracted as the
`validErr` field: `none` means valid.  `backupSpec` abstracts the
backup-relevant spec subset. -/
structure Restic where
  ns : String
  name : String
  validErr : Option String
  backupSpec : String
deriving DecidableEq, Repr

/-- `core.EventTypeWarning`, the Kubernetes warning event class. -/
def EventTypeWarning : String := "Warning"

/-- `eventer.EventReasonInvalidRestic` (pkg eventer, a constant string;
the package is a logging sink outside src). -/
def EventReasonInvalidRestic : String := "InvalidRestic"

/-- The `namespace/name` work-queue key of an object. -/
def resticKey (r : Restic) : String := r.ns ++ "/" ++ r.name

/-- An emitted event: class, reason, message, and the object it is
recorded against.  `reference.GetReference` on a typed Restic always
succeeds (the type is registered in the scheme), so the event is always
recorded. -/
structure Emitted where
  etype : String
  reason : String
  message : String
  obj : String
deriving DecidableEq, Repr

/-- The warning-class event the handlers record for an invalid Restic. -/
def invalidResticEvent (r : Restic) (msg : String) : Emitted :=
  { etype := EventTypeWarning
    reason := EventReasonInvalidRestic
    message := "Reason " ++ msg
    obj := resticKey r }

/-- Modelled from the spec: `util.ResticEqual` (pkg util, not under src/)
compares the backup-relevant spec subset of two Restics by deep
equality, ignoring unrelated metadata. -/
def ResticEqual (oldR newR : Restic) : Bool :=
  oldR.backupSpec == newR.backupSpec

/-- `AddFunc` of `initResticWatcher` (lines 79-96): an invalid Restic
gets a warning event and is not enqueued; a valid one is enqueued.
Result: (events recorded, keys enqueued). -/
def resticAddFunc (r : Restic) : List Emitted × List String :=
  match r.validErr with
  | some msg => ([invalidResticEvent r msg], [])
  | none => ([], [resticKey r])

/-- `UpdateFunc` of `initResticWatcher` (lines 97-123): an invalid new
Restic gets a warning event and is not enqueued; otherwise the key is
enqueued only when the backup-relevant spec changed. -/
def resticUpdateFunc (oldR newR : Restic) : List Emitted × List String :=
  match newR.validErr with
  | some msg => ([invalidResticEvent newR msg], [])
  | none =>
      if !ResticEqual oldR newR then ([], [resticKey newR]) else ([], [])

/-- The replica-set branch of `EnsureSidecar` (restics.go lines
300-314): enumerate the selector-matching replica-sets, skip any owned
by a deployment, enqueue the keys of the rest (modelled by name; the
namespace is fixed). -/
def enqueueReplicaSetKeys (rss : List W) : List String :=
  (rss.filter (fun rs => rs.selMatch)).foldr
    (fun rs acc =>
      if isOwnedByDeployment rs.ownerRefs then acc else rs.name :: acc) []

/-! ## Sidecar RBAC (src/pkg/rbac/sidecar.go) -/

/-- Go `strings.ToLower` on the ASCII kind names used here. -/
def goToLower (s : List Char) : List Char := s.map Char.toLower

/-- Go `strings.Trim(out, "-")`: drop hyphens from both ends. -/
def trimHyphens (l : List Char) : List Char :=
  ((l.dropWhile (fun c => c == '-')).reverse.dropWhile (fun c => c == '-')).reverse

/-- The DNS-1123 length cap of the external kmodules name helper: a
name longer than 63 characters keeps its first and last 31 characters. -/
def truncate63 (out : List Char) : List Char :=
  if 63 < out.length then out.take 31 ++ out.drop (out.length - 31) else out

/-- `meta_util.ValidNameWithPrefixNSuffix` (external kmodules helper):
join the three parts with hyphens, cap the length at the DNS-1123
label limit, trim hyphens from the ends. -/
def ValidNameWithPrefixNSuffix (pre mid suf : List Char) : List Char :=
  trimHyphens (truncate63 (pre ++ '-' :: (mid ++ '-' :: suf)))

/-- `apis.StashSidecarClusterRole`, the shared cluster-role name constant
from the external apimachinery module. -/
def StashSidecarClusterRole : String := "stash-sidecar"

/-- `getSidecarRoleBindingName` (sidecar.go lines 42-44): the binding
name derived from the owning workload's name and (lowercased) kind. -/
def getSidecarRoleBindingName (nm kind : String) : List Char :=
  ValidNameWithPrefixNSuffix StashSidecarClusterRole.toList
    (goToLower kind.toList) nm.toList

/-- The `meta.Name` every `EnsureSidecarRoleBinding` call targets
(sidecar.go line 124): a function of the owner's (kind, name) only, so
repeated ensure-calls for the same workload hit the same binding. -/
def EnsureSidecarRoleBindingName (owner : WorkloadRef) : List Char :=
  getSidecarRoleBindingName owner.name owner.kind

/-- Outcome of the RoleBindings Delete call. -/
inductive DeleteOutcome where
  | ok
  | notFound
  | failed (msg : String)
deriving DecidableEq, Repr

/-- The Delete call against the cluster: an injected transport error
fails without mutating; otherwise the named binding is removed when
present, and absent means not-found. -/
def deleteRoleBindingApi (bs : List (List Char)) (nm : List Char)
    (inj : Option String) : DeleteOutcome × List (List Char) :=
  match inj with
  | some m => (.failed m, bs)
  | none => if nm ∈ bs then (.ok, bs.erase nm) else (.notFound, bs)

/-- `ensureSidecarRoleBindingDeleted` (sidecar.go lines 151-163): delete
the binding named from the workload; an error other than not-found is
returned, not-found is tolerated as success (a successful delete is
logged), and success is returned otherwise. -/
def ensureSidecarRoleBindingDeleted (bs : List (List Char)) (w : WorkloadRef)
    (inj : Option String) : Except String (List (List Char)) :=
  let res := deleteRoleBindingApi bs (getSidecarRoleBindingName w.name w.kind) inj
  match res.1 with
  | .failed m => .error m
  | .ok => .ok res.2
  | .notFound => .ok res.2

/-! ## Map-model lemmas -/

theorem lookupA_eraseKey_self (k : String) (l : List (String × String)) :
    lookupA (eraseKey k l) k = none := by
  induction l with
  | nil => rfl
  | cons p t ih =>
      obtain ⟨k', v⟩ := p
      by_cases h : (k' == k) = true
      · simpa [eraseKey, List.filter_cons, h] using ih
      · simp only [Bool.not_eq_true] at h
        simpa [eraseKey, List.filter_cons, h, lookupA] using ih

theorem getAnn_setAnn_self (a : Option (List (String × String))) (k v : String) :
    getAnn (setAnn a k v) k = some v := by
  simp [getAnn, setAnn, lookupA]

theorem getAnn_delAnn_self (a : Option (List (String × String))) (k : String) :
    getAnn (delAnn a k) k = none := by
  cases a with
  | none => rfl
  | some l => simpa [getAnn, delAnn] using lookupA_eraseKey_self k l

/-! ## Per-element facts about the batch run -/

theorem runW_eq (w : W) (h : w.selMatch = true) :
    scaleUpOneW (scaleDownW w) =
      { w with
        annotations := setAnn w.annotations AnnotationOldReplica (goItoa w.replicas)
        replicas := 1 } := by
  simp [scaleDownW, scaleUpOneW, h]

theorem runW_id (w : W) (h : w.selMatch = false) :
    scaleUpOneW (scaleDownW w) = w := by
  simp [scaleDownW, scaleUpOneW, h]

theorem runRS_eq (w : W) (h : (w.selMatch && !isOwnedByDeployment w.ownerRefs) = true) :
    scaleUpOneRS (scaleDownRS w) =
      { w with
        annotations := setAnn w.annotations AnnotationOldReplica (goItoa w.replicas)
        replicas := 1 } := by
  simp only [Bool.and_eq_true, Bool.not_eq_true'] at h
  simp [scaleDownRS, scaleUpOneRS, h.1, h.2]

theorem runRS_id (w : W) (h : (w.selMatch && !isOwnedByDeployment w.ownerRefs) = false) :
    scaleUpOneRS (scaleDownRS w) = w := by
  simp [scaleDownRS, scaleUpOneRS, h]

theorem run_deployments (c : Cluster) :
    (ScaleDownWorkload c).deployments =
      c.deployments.map (fun w => scaleUpOneW (scaleDownW w)) := by
  simp [ScaleDownWorkload, deletePodsPhase, scaleUpPhase, scaleDownPhase, List.map_map]

theorem run_rcs (c : Cluster) :
    (ScaleDownWorkload c).replicationControllers =
      c.replicationControllers.map (fun w => scaleUpOneW (scaleDownW w)) := by
  simp [ScaleDownWorkload, deletePodsPhase, scaleUpPhase, scaleDownPhase, List.map_map]

theorem run_rss (c : Cluster) :
    (ScaleDownWorkload c).replicaSets =
      c.replicaSets.map (fun w => scaleUpOneRS (scaleDownRS w)) := by
  simp [ScaleDownWorkload, deletePodsPhase, scaleUpPhase, scaleDownPhase, List.map_map]

theorem run_pods (c : Cluster) :
    (ScaleDownWorkload c).pods =
      c.pods.filter (fun p => !(p.selMatch && isDaemonOrStatefulSetPod p.ownerRefs)) := by
  simp [ScaleDownWorkload, deletePodsPhase, scaleUpPhase, scaleDownPhase]

theorem runW_selMatch (w : W) : (scaleUpOneW (scaleDownW w)).selMatch = w.selMatch := by
  by_cases h : w.selMatch = true
  · rw [runW_eq w h]
  · rw [runW_id w (by simpa using h)]

theorem runW_twice_ann (w : W) (h : w.selMatch = true) :
    getAnn (scaleUpOneW (scaleDownW (scaleUpOneW (scaleDownW w)))).annotations
      AnnotationOldReplica = some (goItoa 1) := by
  rw [runW_eq w h]
  rw [runW_eq { w with
        annotations := setAnn w.annotations AnnotationOldReplica (goItoa w.replicas)
        replicas := 1 } h]
  simp [getAnn_setAnn_self]

theorem runRS_cond (w : W) :
    ((scaleUpOneRS (scaleDownRS w)).selMatch &&
        !isOwnedByDeployment (scaleUpOneRS (scaleDownRS w)).ownerRefs) =
      (w.selMatch && !isOwnedByDeployment w.ownerRefs) := by
  by_cases h : (w.selMatch && !isOwnedByDeployment w.ownerRefs) = true
  · rw [runRS_eq w h]
  · rw [runRS_id w (by simpa using h)]

theorem runRS_twice_ann (w : W)
    (h : (w.selMatch && !isOwnedByDeployment w.ownerRefs) = true) :
    getAnn (scaleUpOneRS (scaleDownRS (scaleUpOneRS (scaleDownRS w)))).annotations
      AnnotationOldReplica = some (goItoa 1) := by
  rw [runRS_eq w h]
  rw [runRS_eq { w with
        annotations := setAnn w.annotations AnnotationOldReplica (goItoa w.replicas)
        replicas := 1 } h]
  simp [getAnn_setAnn_self]

/-! ## Claim C1 -/

/-- Concrete input for C1: a single matching deployment with 3 replicas
and no annotations. -/
def c1CexCluster : Cluster :=
  { deployments := [{ name := "d1", replicas := 3, annotations := none,
                      ownerRefs := [], selMatch := true }]
    replicationControllers := []
    replicaSets := []
    statefulSets := []
    daemonSets := []
    pods := [] }

/-- The deployment as it stands after two batch runs on `c1CexCluster`. -/
def c1OutW : W :=
  { name := "d1", replicas := 1,
    annotations := some [(AnnotationOldReplica, "1")],
    ownerRefs := [], selMatch := true }

/-- C1, as stated, is false: the scale-down patch writes the saved-count
annotation unconditionally, and the batch run ends by scaling matching
workloads to 1.  Concrete input: one matching deployment with 3
replicas and no annotations.  After running `ScaleDownWorkload` twice
with no intervening restore, the saved-count annotation holds "1", not
the original count "3" that the claim requires. -/
theorem scaleDownTwice_counterexample :
    (c1CexCluster.deployments.map (fun w => w.replicas) = [3]) ∧
    ((ScaleDownWorkload (ScaleDownWorkload c1CexCluster)).deployments.map
        (fun w => getAnn w.annotations AnnotationOldReplica) = [some "1"]) ∧
    some "1" ≠ some (goItoa 3) := by
  refine ⟨rfl, rfl, by decide⟩

/-- C1 amended: running the batch scale-down twice in a row without an
intervening restore leaves the saved-count annotation of every matching
scalable workload equal to the string encoding of 1 (the replica count
the first run's ending batch scale-up installed) — the annotation write
is unconditional, so the original count is overwritten, although the
value never becomes 0 because the count is read before the zeroing patch
of the same run. -/
theorem scaleDownTwice_annotation_eq_one (c : Cluster) :
    goItoa 1 = "1" ∧
    (∀ w ∈ (ScaleDownWorkload (ScaleDownWorkload c)).deployments,
        w.selMatch = true →
        getAnn w.annotations AnnotationOldReplica = some (goItoa 1)) ∧
    (∀ w ∈ (ScaleDownWorkload (ScaleDownWorkload c)).replicationControllers,
        w.selMatch = true →
        getAnn w.annotations AnnotationOldReplica = some (goItoa 1)) ∧
    (∀ w ∈ (ScaleDownWorkload (ScaleDownWorkload c)).replicaSets,
        (w.selMatch && !isOwnedByDeployment w.ownerRefs) = true →
        getAnn w.annotations AnnotationOldReplica = some (goItoa 1)) := by
  refine ⟨rfl, ?_, ?_, ?_⟩
  · intro w hw hsel
    rw [run_deployments, run_deployments, List.map_map] at hw
    obtain ⟨w0, _, rfl⟩ := List.mem_map.mp hw
    have h0 : w0.selMatch = true := by
      simpa [Function.comp, runW_selMatch] using hsel
    simpa [Function.comp] using runW_twice_ann w0 h0
  · intro w hw hsel
    rw [run_rcs, run_rcs, List.map_map] at hw
    obtain ⟨w0, _, rfl⟩ := List.mem_map.mp hw
    have h0 : w0.selMatch = true := by
      simpa [Function.comp, runW_selMatch] using hsel
    simpa [Function.comp] using runW_twice_ann w0 h0
  · intro w hw hsel
    rw [run_rss, run_rss, List.map_map] at hw
    obtain ⟨w0, _, rfl⟩ := List.mem_map.mp hw
    have h0 : (w0.selMatch && !isOwnedByDeployment w0.ownerRefs) = true := by
      simpa [Function.comp, runRS_cond] using hsel
    simpa [Function.comp] using runRS_twice_ann w0 h0

/-- C1 witness: the amended theorem applied to the concrete cluster of
the counterexample. -/
theorem scaleDownTwice_annotation_eq_one_witness :
    getAnn c1OutW.annotations AnnotationOldReplica = some (goItoa 1) :=
  (scaleDownTwice_annotation_eq_one c1CexCluster).2.1 c1OutW (by decide) (by decide)

/-! ## Claim C2 -/

/-- Concrete input for C2: a single matching deployment with 3 replicas. -/
def c2CexCluster : Cluster :=
  { deployments := [{ name := "d2", replicas := 3, annotations := none,
                      ownerRefs := [], selMatch := true }]
    replicationControllers := []
    replicaSets := []
    statefulSets := []
    daemonSets := []
    pods := [] }

/-- C2, as stated, is false: after one batch run on a matching
deployment with 3 replicas, the saved-count annotation is "3" but the
ScalingUp phase has set the replicas to the literal 1, not back to the
saved value 3. -/
theorem scalingUp_counterexample :
    ((ScaleDownWorkload c2CexCluster).deployments.map
        (fun w => (getAnn w.annotations AnnotationOldReplica, w.replicas)))
      = [(some (goItoa 3), 1)] ∧ (1 : Int) ≠ 3 := by
  refine ⟨by decide, by decide⟩

/-- C2 amended: in the ScalingUp phase of the batch run, replicas of
every matching workload of a scaled-down kind are patched to the
literal value 1 regardless of any saved value (the saved value is only
applied later by the per-workload restore), and daemon-set /
stateful-set pods are deleted directly instead of being scaled. -/
theorem scalingUpPhase_literal_one (c : Cluster) :
    (∀ w ∈ (scaleUpPhase c).deployments, w.selMatch = true → w.replicas = 1) ∧
    (∀ w ∈ (scaleUpPhase c).replicationControllers, w.selMatch = true → w.replicas = 1) ∧
    (∀ w ∈ (scaleUpPhase c).replicaSets,
        (w.selMatch && !isOwnedByDeployment w.ownerRefs) = true → w.replicas = 1) ∧
    ((ScaleDownWorkload c).pods =
      c.pods.filter (fun p => !(p.selMatch && isDaemonOrStatefulSetPod p.ownerRefs))) := by
  refine ⟨?_, ?_, ?_, run_pods c⟩
  · intro w hw hsel
    obtain ⟨w0, _, rfl⟩ := List.mem_map.mp hw
    by_cases h0 : w0.selMatch = true
    · simp [scaleUpOneW, h0]
    · simp [scaleUpOneW, h0] at hsel
  · intro w hw hsel
    obtain ⟨w0, _, rfl⟩ := List.mem_map.mp hw
    by_cases h0 : w0.selMatch = true
    · simp [scaleUpOneW, h0]
    · simp [scaleUpOneW, h0] at hsel
  · intro w hw hsel
    obtain ⟨w0, _, rfl⟩ := List.mem_map.mp hw
    by_cases h0 : (w0.selMatch && !isOwnedByDeployment w0.ownerRefs) = true
    · simp [scaleUpOneRS, h0]
    · rw [show scaleUpOneRS w0 = w0 from by simp [scaleUpOneRS, Bool.eq_false_iff.mpr h0]] at hsel ⊢
      exact absurd hsel h0

/-- C2 witness: the amended theorem applied to the concrete cluster. -/
theorem scalingUpPhase_literal_one_witness :
    ({ name := "d2", replicas := 1, annotations := none, ownerRefs := [],
       selMatch := true } : W).replicas = 1 :=
  (scalingUpPhase_literal_one c2CexCluster).1
    { name := "d2", replicas := 1, annotations := none, ownerRefs := [], selMatch := true }
    (by decide) (by decide)

/-! ## Claim C5 -/

/-- C5: one iteration of the drain-wait poll succeeds exactly when every
selector-matching pod is owned by a daemon-set or stateful-set (the
cluster is static between iterations, so this decides the bounded
poll), and the batch run proceeds through batch scale-up and pod
deletion unconditionally — a drain timeout is only logged
(src/unnamed/part_000 lines 140-144), never propagated. -/
theorem waitUntilScaledDown_spec (c : Cluster) :
    (waitUntilScaledDown c = true ↔
        ∀ p ∈ c.pods, p.selMatch = true →
          isDaemonOrStatefulSetPod p.ownerRefs = true) ∧
    ScaleDownWorkload c = deletePodsPhase (scaleUpPhase (scaleDownPhase c)) := by
  constructor
  · simp only [waitUntilScaledDown, List.all_eq_true, List.mem_filter]
    constructor
    · intro h p hp hsel
      exact h p ⟨hp, hsel⟩
    · intro h p hp
      exact h p hp.1 hp.2
  · rfl

/-- C5 witness: a cluster with one matching stateful-set pod and one
non-matching bare pod drains successfully. -/
theorem waitUntilScaledDown_spec_witness :
    waitUntilScaledDown
      { deployments := [], replicationControllers := [], replicaSets := [],
        statefulSets := [], daemonSets := [],
        pods := [{ name := "p1", ownerRefs := [{ kind := "StatefulSet" }], selMatch := true },
                 { name := "p2", ownerRefs := [], selMatch := false }] } = true :=
  (waitUntilScaledDown_spec _).1.mpr (by decide)

/-! ## Claim C4 -/

/-- C4: a replica-set owned by a deployment is never scaled or annotated
by the batch run — both the ScalingDown and the ScalingUp patches skip
it, the whole run maps it to itself unchanged — and the reconciliation
enqueue of `EnsureSidecar` emits keys exactly for the selector-matching
replica-sets that are not deployment-owned. -/
theorem deployment_owned_replicaset_untouched :
    (∀ w : W, isOwnedByDeployment w.ownerRefs = true →
        scaleDownRS w = w ∧ scaleUpOneRS w = w) ∧
    (∀ c : Cluster, (ScaleDownWorkload c).replicaSets =
        c.replicaSets.map (fun w => scaleUpOneRS (scaleDownRS w))) ∧
    (∀ c : Cluster, ∀ w ∈ c.replicaSets, isOwnedByDeployment w.ownerRefs = true →
        w ∈ (ScaleDownWorkload c).replicaSets) ∧
    (∀ rss : List W, enqueueReplicaSetKeys rss =
        (rss.filter (fun w => w.selMatch && !isOwnedByDeployment w.ownerRefs)).map
          (fun w => w.name)) := by
  have hfix : ∀ w : W, isOwnedByDeployment w.ownerRefs = true →
      scaleDownRS w = w ∧ scaleUpOneRS w = w := by
    intro w h
    constructor
    · simp [scaleDownRS, h]
    · simp [scaleUpOneRS, h]
  refine ⟨hfix, run_rss, ?_, ?_⟩
  · intro c w hw h
    rw [run_rss]
    refine List.mem_map.mpr ⟨w, hw, ?_⟩
    rw [(hfix w h).1, (hfix w h).2]
  · intro rss
    induction rss with
    | nil => rfl
    | cons w t ih =>
        by_cases hm : w.selMatch = true
        · by_cases ho : isOwnedByDeployment w.ownerRefs = true
          · simp [enqueueReplicaSetKeys, List.filter_cons, hm, ho] at ih ⊢
            exact ih
          · simp only [Bool.not_eq_true] at ho
            simp [enqueueReplicaSetKeys, List.filter_cons, hm, ho] at ih ⊢
            exact ih
        · simp only [Bool.not_eq_true] at hm
          simp [enqueueReplicaSetKeys, List.filter_cons, hm] at ih ⊢
          exact ih

/-- C4 witness: a deployment-owned replica-set is left untouched by the
scale-down patch. -/
theorem deployment_owned_replicaset_untouched_witness :
    scaleDownRS { name := "rs1", replicas := 4, annotations := none,
                  ownerRefs := [{ kind := "Deployment" }], selMatch := true } =
      { name := "rs1", replicas := 4, annotations := none,
        ownerRefs := [{ kind := "Deployment" }], selMatch := true } :=
  (deployment_owned_replicaset_untouched.1
    { name := "rs1", replicas := 4, annotations := none,
      ownerRefs := [{ kind := "Deployment" }], selMatch := true } (by decide)).1

/-! ## Claim C6 -/

/-- C6: the per-workload restore is a success-returning no-op for
stateful-sets and daemon-sets (they were never scaled down or
annotated), and any kind outside the five supported ones yields the
"Unknown workload type" error for that restore attempt. -/
theorem scaleUpWorkload_kind_handling (c : Cluster) (ref : WorkloadRef) :
    ((ref.kind = KindStatefulSet ∨ ref.kind = KindDaemonSet) →
        ScaleUpWorkload c ref = .ok c) ∧
    (ref.kind ∉ supportedKinds →
        ScaleUpWorkload c ref = .error "Unknown workload type") := by
  constructor
  · rintro (h | h) <;>
      simp [ScaleUpWorkload, h, KindStatefulSet, KindDaemonSet, KindDeployment,
        KindReplicationController, KindReplicaSet]
  · intro h
    simp only [supportedKinds, List.mem_cons, List.mem_singleton, not_or] at h
    obtain ⟨h1, h2, h3, h4, h5⟩ := h
    simp [ScaleUpWorkload, h1, h2, h3, h4, h5]

/-- Concrete cluster for the C6 witness. -/
def c6Cluster : Cluster :=
  { deployments := [], replicationControllers := [], replicaSets := [],
    statefulSets := [{ name := "s", replicas := 2,
                       annotations := some [(AnnotationOldReplica, "7")],
                       ownerRefs := [], selMatch := true }],
    daemonSets := [], pods := [] }

/-- C6 witness: restoring a stateful-set succeeds without mutation, and
an unknown kind errors. -/
theorem scaleUpWorkload_kind_handling_witness :
    ScaleUpWorkload c6Cluster { kind := "StatefulSet", name := "s" } = .ok c6Cluster ∧
    ScaleUpWorkload c6Cluster { kind := "CronJob", name := "c" } =
      .error "Unknown workload type" :=
  ⟨(scaleUpWorkload_kind_handling c6Cluster { kind := "StatefulSet", name := "s" }).1
      (Or.inl rfl),
   (scaleUpWorkload_kind_handling c6Cluster { kind := "CronJob", name := "c" }).2
      (by decide)⟩

/-! ## Claim C7 -/

/-- C7: on both the add and the update path of the Restic watcher, an
object failing the validity predicate is never enqueued for
reconciliation; instead a single warning-class event is recorded
against it. -/
theorem invalid_restic_never_enqueued (r oldR : Restic) (msg : String)
    (h : r.validErr = some msg) :
    resticAddFunc r = ([invalidResticEvent r msg], []) ∧
    resticUpdateFunc oldR r = ([invalidResticEvent r msg], []) ∧
    (invalidResticEvent r msg).etype = EventTypeWarning := by
  refine ⟨?_, ?_, rfl⟩
  · simp [resticAddFunc, h]
  · simp [resticUpdateFunc, h]

/-- C7 witness: a Restic with a selector error is not enqueued on either
path. -/
theorem invalid_restic_never_enqueued_witness :
    resticAddFunc { ns := "ns", name := "r1", validErr := some "bad selector",
                    backupSpec := "x" } =
      ([invalidResticEvent { ns := "ns", name := "r1", validErr := some "bad selector",
                             backupSpec := "x" } "bad selector"], []) :=
  (invalid_restic_never_enqueued
    { ns := "ns", name := "r1", validErr := some "bad selector", backupSpec := "x" }
    { ns := "ns", name := "r1", validErr := none, backupSpec := "y" }
    "bad selector" rfl).1

/-! ## Claim C8 -/

/-- C8: retracting a sidecar's role binding returns success both when
the binding existed (it is deleted) and when it was already absent
(not-found tolerated as success); any other deletion error is
returned. -/
theorem retract_grant_tolerates_not_found (bs : List (List Char)) (w : WorkloadRef) :
    (getSidecarRoleBindingName w.name w.kind ∈ bs →
        ensureSidecarRoleBindingDeleted bs w none =
          .ok (bs.erase (getSidecarRoleBindingName w.name w.kind))) ∧
    (getSidecarRoleBindingName w.name w.kind ∉ bs →
        ensureSidecarRoleBindingDeleted bs w none = .ok bs) ∧
    (∀ m : String, ensureSidecarRoleBindingDeleted bs w (some m) = .error m) := by
  refine ⟨?_, ?_, ?_⟩
  · intro h
    simp [ensureSidecarRoleBindingDeleted, deleteRoleBindingApi, h]
  · intro h
    simp [ensureSidecarRoleBindingDeleted, deleteRoleBindingApi, h]
  · intro m
    simp [ensureSidecarRoleBindingDeleted, deleteRoleBindingApi]

/-- C8 witness: deleting the present binding of a deployment succeeds
and removes it; deleting it again (absent) still succeeds. -/
theorem retract_grant_tolerates_not_found_witness :
    ensureSidecarRoleBindingDeleted [getSidecarRoleBindingName "web" "Deployment"]
      { kind := "Deployment", name := "web" } none = .ok [] ∧
    ensureSidecarRoleBindingDeleted [] { kind := "Deployment", name := "web" } none =
      .ok [] := by
  constructor
  · have := (retract_grant_tolerates_not_found
        [getSidecarRoleBindingName "web" "Deployment"]
        { kind := "Deployment", name := "web" }).1 (by simp)
    simpa using this
  · exact (retract_grant_tolerates_not_found []
      { kind := "Deployment", name := "web" }).2.1 (by simp)

/-! ## Claim C10 -/

/-- C10: `HasOldReplicaAnnotation` reports false for every stateful-set,
daemon-set, or unrecognized kind, regardless of which annotations are
actually present on any object in the cluster — the saved-count
annotation is only ever reported for the three scalable kinds. -/
theorem hasOldReplicaAnnotation_false_for_unscalable (c : Cluster) (ref : WorkloadRef)
    (h : ref.kind = KindStatefulSet ∨ ref.kind = KindDaemonSet ∨
        ref.kind ∉ supportedKinds) :
    HasOldReplicaAnnot c ref = some false := by
  rcases h with h | h | h
  · simp [HasOldReplicaAnnot, h, hasKey, getAnn, KindStatefulSet, KindDeployment,
      KindReplicationController, KindReplicaSet]
  · simp [HasOldReplicaAnnot, h, hasKey, getAnn, KindDaemonSet, KindDeployment,
      KindReplicationController, KindReplicaSet, KindStatefulSet]
  · simp only [supportedKinds, List.mem_cons, List.mem_singleton, not_or] at h
    obtain ⟨h1, h2, h3, h4, h5⟩ := h
    simp [HasOldReplicaAnnot, h1, h2, h3, h4, h5, hasKey, getAnn]

/-- C10 witness: a stateful-set that does carry the saved-count
annotation is still reported as not having it. -/
theorem hasOldReplicaAnnotation_false_for_unscalable_witness :
    HasOldReplicaAnnot c6Cluster { kind := "StatefulSet", name := "s" } =
      some false :=
  hasOldReplicaAnnotation_false_for_unscalable c6Cluster
    { kind := "StatefulSet", name := "s" } (Or.inl rfl)

/-! ## Claim C3 -/

theorem restorePatch_name (replica : Int) (w : W) :
    (restorePatch replica w).name = w.name := rfl

theorem patchByName_cons_pos (w : W) (t : List W) (nm : String) (f : W → W)
    (h : (w.name == nm) = true) :
    patchByName (w :: t) nm f = f w :: patchByName t nm f := by
  simp only [patchByName, List.map_cons]
  rw [if_pos h]

theorem patchByName_cons_neg (w : W) (t : List W) (nm : String) (f : W → W)
    (h : ¬(w.name == nm) = true) :
    patchByName (w :: t) nm f = w :: patchByName t nm f := by
  simp only [patchByName, List.map_cons]
  rw [if_neg h]

theorem find?_patchByName (l : List W) (nm : String) (f : W → W)
    (hf : ∀ w : W, (f w).name = w.name) :
    (patchByName l nm f).find? (fun x => x.name == nm) =
      (l.find? (fun x => x.name == nm)).map f := by
  induction l with
  | nil => rfl
  | cons w t ih =>
      by_cases h : (w.name == nm) = true
      · rw [patchByName_cons_pos w t nm f h]
        rw [List.find?_cons_of_pos (p := fun x : W => x.name == nm) _
          (show ((f w).name == nm) = true from by rw [hf w]; exact h)]
        rw [List.find?_cons_of_pos (p := fun x : W => x.name == nm) _ h]
        rfl
      · rw [patchByName_cons_neg w t nm f h]
        rw [List.find?_cons_of_neg (p := fun x : W => x.name == nm) _ h,
          List.find?_cons_of_neg (p := fun x : W => x.name == nm) _ h]
        exact ih

theorem restoreWorkload_spec (l : List W) (nm s : String) (w : W) (N : Int)
    (hfind : l.find? (fun x => x.name == nm) = some w)
    (ha : getAnn w.annotations AnnotationOldReplica = some s)
    (hp : goAtoi s = .ok N) :
    restoreWorkload l nm = .ok (patchByName l nm (restorePatch N)) ∧
    (patchByName l nm (restorePatch N)).find? (fun x => x.name == nm) =
      some (restorePatch N w) ∧
    restoreWorkload (patchByName l nm (restorePatch N)) nm =
      .error "key not found" := by
  have hiv : getIntValue w.annotations AnnotationOldReplica = .ok N := by
    simp [getIntValue, ha, hp]
  have hfind2 : (patchByName l nm (restorePatch N)).find? (fun x => x.name == nm) =
      some (restorePatch N w) := by
    rw [find?_patchByName l nm (restorePatch N) (restorePatch_name N), hfind]
    rfl
  refine ⟨?_, hfind2, ?_⟩
  · simp [restoreWorkload, hfind, hiv]
  · have hnone : getIntValue (restorePatch N w).annotations AnnotationOldReplica =
        .error "key not found" := by
      simp [getIntValue, restorePatch, getAnn_delAnn_self]
    simp [restoreWorkload, hfind2, hnone]

theorem toInt32_of_range (i : Int) (h1 : -2147483648 ≤ i)
    (h2 : i < 2147483648) : toInt32 i = i := by
  unfold toInt32
  show (if i % 4294967296 < 2147483648 then i % 4294967296
        else i % 4294967296 - 4294967296) = i
  split <;> omega

/-- C3 (amended): for each scalable kind, restoring a workload whose
saved-count annotation encodes an int32-representable N — which is every
value this controller itself writes, since the annotation is taken from
an int32 replica count — patches its replica count to N and deletes the
annotation; running the restore again with the annotation absent
performs no patch and returns the missing-annotation ("nothing to
restore") error.  Outside int32 range the restored count is the
two's-complement wrap `int32(N)` instead (see the counterexample). -/
theorem scaleUpWorkload_restores_saved_count (c : Cluster) (nm s : String)
    (w : W) (N : Int)
    (ha : getAnn w.annotations AnnotationOldReplica = some s)
    (hp : goAtoi s = .ok N)
    (hlo : -2147483648 ≤ N) (hhi : N < 2147483648) :
    (c.deployments.find? (fun x => x.name == nm) = some w →
        ∃ c', ScaleUpWorkload c { kind := KindDeployment, name := nm } = .ok c' ∧
          c'.deployments.find? (fun x => x.name == nm) = some (restorePatch N w) ∧
          (restorePatch N w).replicas = N ∧
          getAnn (restorePatch N w).annotations AnnotationOldReplica = none ∧
          ScaleUpWorkload c' { kind := KindDeployment, name := nm } =
            .error "key not found") ∧
    (c.replicationControllers.find? (fun x => x.name == nm) = some w →
        ∃ c', ScaleUpWorkload c { kind := KindReplicationController, name := nm } = .ok c' ∧
          c'.replicationControllers.find? (fun x => x.name == nm) =
            some (restorePatch N w) ∧
          (restorePatch N w).replicas = N ∧
          getAnn (restorePatch N w).annotations AnnotationOldReplica = none ∧
          ScaleUpWorkload c' { kind := KindReplicationController, name := nm } =
            .error "key not found") ∧
    (c.replicaSets.find? (fun x => x.name == nm) = some w →
        ∃ c', ScaleUpWorkload c { kind := KindReplicaSet, name := nm } = .ok c' ∧
          c'.replicaSets.find? (fun x => x.name == nm) = some (restorePatch N w) ∧
          (restorePatch N w).replicas = N ∧
          getAnn (restorePatch N w).annotations AnnotationOldReplica = none ∧
          ScaleUpWorkload c' { kind := KindReplicaSet, name := nm } =
            .error "key not found") := by
  refine ⟨?_, ?_, ?_⟩
  · intro hfind
    obtain ⟨h1, h2, h3⟩ := restoreWorkload_spec c.deployments nm s w N hfind ha hp
    refine ⟨Cluster.mk (patchByName c.deployments nm (restorePatch N))
        c.replicationControllers c.replicaSets c.statefulSets c.daemonSets c.pods,
      ?_, h2, by simp [restorePatch, toInt32_of_range N hlo hhi],
      by simp [restorePatch, getAnn_delAnn_self], ?_⟩
    · simp [ScaleUpWorkload, h1]
    · simp [ScaleUpWorkload, h3]
  · intro hfind
    obtain ⟨h1, h2, h3⟩ := restoreWorkload_spec c.replicationControllers nm s w N hfind ha hp
    refine ⟨Cluster.mk c.deployments
        (patchByName c.replicationControllers nm (restorePatch N))
        c.replicaSets c.statefulSets c.daemonSets c.pods,
      ?_, h2, by simp [restorePatch, toInt32_of_range N hlo hhi],
      by simp [restorePatch, getAnn_delAnn_self], ?_⟩
    · simp [ScaleUpWorkload, h1, KindReplicationController, KindDeployment]
    · simp [ScaleUpWorkload, h3, KindReplicationController, KindDeployment]
  · intro hfind
    obtain ⟨h1, h2, h3⟩ := restoreWorkload_spec c.replicaSets nm s w N hfind ha hp
    refine ⟨Cluster.mk c.deployments c.replicationControllers
        (patchByName c.replicaSets nm (restorePatch N))
        c.statefulSets c.daemonSets c.pods,
      ?_, h2, by simp [restorePatch, toInt32_of_range N hlo hhi],
      by simp [restorePatch, getAnn_delAnn_self], ?_⟩
    · simp [ScaleUpWorkload, h1, KindReplicaSet, KindDeployment, KindReplicationController]
    · simp [ScaleUpWorkload, h3, KindReplicaSet, KindDeployment, KindReplicationController]

/-- The annotated deployment of the C3 witness: saved count 3, currently
at 1 replica (as after a batch run). -/
def c3W : W :=
  { name := "d3", replicas := 1,
    annotations := some [(AnnotationOldReplica, "3")],
    ownerRefs := [], selMatch := true }

/-- Concrete cluster for the C3 witness. -/
def c3Cluster : Cluster :=
  { deployments := [c3W]
    replicationControllers := []
    replicaSets := []
    statefulSets := []
    daemonSets := []
    pods := [] }

/-- C3 witness: restoring the annotated deployment yields replicas 3 and
no annotation; restoring again errors with nothing to restore. -/
theorem scaleUpWorkload_restores_saved_count_witness :
    ∃ c', ScaleUpWorkload c3Cluster { kind := KindDeployment, name := "d3" } = .ok c' ∧
      c'.deployments.find? (fun x => x.name == "d3") = some (restorePatch 3 c3W) ∧
      (restorePatch 3 c3W).replicas = 3 ∧
      getAnn (restorePatch 3 c3W).annotations AnnotationOldReplica = none ∧
      ScaleUpWorkload c' { kind := KindDeployment, name := "d3" } =
        .error "key not found" :=
  (scaleUpWorkload_restores_saved_count c3Cluster "d3" "3" c3W 3
    (by decide) (by rfl) (by decide) (by decide)).1 (by decide)

/-- The C3 counterexample input: a deployment whose saved-count
annotation holds 2^31, one past the int32 maximum. -/
def c3CexW : W :=
  { name := "d9", replicas := 1,
    annotations := some [(AnnotationOldReplica, "2147483648")],
    ownerRefs := [], selMatch := true }

/-- Concrete cluster for the C3 counterexample. -/
def c3CexCluster : Cluster :=
  { deployments := [c3CexW]
    replicationControllers := []
    replicaSets := []
    statefulSets := []
    daemonSets := []
    pods := [] }

/-- C3, as stated, is false: with the annotation encoding
N = 2147483648, Atoi succeeds (within int range) but the
`int32(replica)` conversion wraps, so the restore sets the replica
count to -2147483648, not to N. -/
theorem scaleUpWorkload_wrap_counterexample :
    goAtoi "2147483648" = .ok 2147483648 ∧
    ((ScaleUpWorkload c3CexCluster { kind := KindDeployment, name := "d9" }).map
        (fun c' => c'.deployments.map (fun x => x.replicas)))
      = .ok [-2147483648] ∧
    (-2147483648 : Int) ≠ 2147483648 := by
  refine ⟨rfl, rfl, by decide⟩

/-! ## Claim C9 -/

theorem truncate63_take31 (l : List Char) : (truncate63 l).take 31 = l.take 31 := by
  unfold truncate63
  by_cases h : 63 < l.length
  · rw [if_pos h, List.take_append_of_le_length (by rw [List.length_take]; omega)]
    rw [List.take_take]
    norm_num
  · rw [if_neg h]

theorem truncate63_length_gt (l : List Char) (n : Nat) (hn : n < 31)
    (h : n < l.length) : n < (truncate63 l).length := by
  unfold truncate63
  by_cases h63 : 63 < l.length
  · rw [if_pos h63, List.length_append, List.length_take, List.length_drop]
    omega
  · rw [if_neg h63]; exact h

theorem truncate63_getElem? (l : List Char) (i : Nat) (hi : i < 31) :
    (truncate63 l)[i]? = l[i]? := by
  calc (truncate63 l)[i]?
      = ((truncate63 l).take 31)[i]? := (List.getElem?_take_of_lt hi).symm
    _ = (l.take 31)[i]? := by rw [truncate63_take31]
    _ = l[i]? := List.getElem?_take_of_lt hi

theorem truncate63_take22 (l : List Char) : (truncate63 l).take 22 = l.take 22 := by
  calc (truncate63 l).take 22
      = ((truncate63 l).take 31).take 22 := by rw [List.take_take]; norm_num
    _ = (l.take 31).take 22 := by rw [truncate63_take31]
    _ = l.take 22 := by rw [List.take_take]; norm_num

/-- The first 22 characters of a generated name survive truncation and
hyphen-trimming whenever the prefix-and-kind part is longer than 22
characters, starts with a non-hyphen, and has a non-hyphen at index 22. -/
theorem validName_take22 (pre mid suf : List Char) (c0 c22 : Char)
    (h1 : 22 < (pre ++ '-' :: mid).length)
    (h0 : (pre ++ '-' :: mid)[0]? = some c0) (h0ne : (c0 == '-') = false)
    (h22 : (pre ++ '-' :: mid)[22]? = some c22) (h22ne : (c22 == '-') = false) :
    (ValidNameWithPrefixNSuffix pre mid suf).take 22 =
      (pre ++ '-' :: mid).take 22 := by
  have hassoc : pre ++ '-' :: (mid ++ '-' :: suf) =
      (pre ++ '-' :: mid) ++ ('-' :: suf) := by
    simp
  have hvn : ValidNameWithPrefixNSuffix pre mid suf =
      trimHyphens (truncate63 ((pre ++ '-' :: mid) ++ ('-' :: suf))) := by
    unfold ValidNameWithPrefixNSuffix
    rw [hassoc]
  rw [hvn]
  set t : List Char := truncate63 ((pre ++ '-' :: mid) ++ ('-' :: suf)) with htdef
  have hlenout : 22 < ((pre ++ '-' :: mid) ++ ('-' :: suf)).length := by
    rw [List.length_append]; omega
  have hlent : 22 < t.length := truncate63_length_gt _ 22 (by omega) hlenout
  have ht0 : t[0]? = some c0 := by
    rw [htdef, truncate63_getElem? _ 0 (by omega),
      List.getElem?_append_left (by omega), h0]
  have ht22 : t[22]? = some c22 := by
    rw [htdef, truncate63_getElem? _ 22 (by omega),
      List.getElem?_append_left (by omega), h22]
  obtain ⟨rest, hrest⟩ : ∃ rest, t = c0 :: rest := by
    cases htl : t with
    | nil => rw [htl] at ht0; simp at ht0
    | cons a r =>
        rw [htl] at ht0
        simp only [List.getElem?_cons_zero, Option.some.injEq] at ht0
        exact ⟨r, by rw [ht0]⟩
  have hltrim : t.dropWhile (fun c => c == '-') = t := by
    rw [hrest]
    exact List.dropWhile_cons_of_neg (by simp [h0ne])
  have e1 : t.reverse.takeWhile (fun c => c == '-') ++
      t.reverse.dropWhile (fun c => c == '-') = t.reverse :=
    List.takeWhile_append_dropWhile _ _
  have e2 : t = (t.reverse.dropWhile (fun c => c == '-')).reverse ++
      (t.reverse.takeWhile (fun c => c == '-')).reverse := by
    have h' := congrArg List.reverse e1
    rw [List.reverse_append, List.reverse_reverse] at h'
    exact h'.symm
  have hH : ∀ ch ∈ (t.reverse.takeWhile (fun c => c == '-')).reverse,
      (ch == '-') = true := by
    intro ch hch
    rw [List.mem_reverse] at hch
    exact List.mem_takeWhile_imp (p := fun c : Char => c == '-') hch
  have hRlen : 22 < (t.reverse.dropWhile (fun c => c == '-')).reverse.length := by
    by_contra hcon
    push_neg at hcon
    have h22t := ht22
    rw [e2, List.getElem?_append_right (by omega)] at h22t
    have hmem : c22 ∈ (t.reverse.takeWhile (fun c => c == '-')).reverse :=
      List.getElem?_mem h22t
    have := hH c22 hmem
    simp [h22ne] at this
  have hRtake : (t.reverse.dropWhile (fun c => c == '-')).reverse.take 22 =
      t.take 22 := by
    conv_rhs => rw [e2]
    rw [List.take_append_of_le_length (by omega)]
  unfold trimHyphens
  rw [hltrim, hRtake, htdef, truncate63_take22,
    List.take_append_of_le_length (by omega)]

/-- The first 22 characters of a sidecar binding name are determined by
the workload kind alone, for each of the five supported kinds. -/
theorem bindingName_take22 (nm kind : String) (hk : kind ∈ supportedKinds) :
    (getSidecarRoleBindingName nm kind).take 22 =
      (StashSidecarClusterRole.toList ++ '-' :: goToLower kind.toList).take 22 := by
  simp only [supportedKinds, List.mem_cons, List.not_mem_nil, or_false] at hk
  rcases hk with rfl | rfl | rfl | rfl | rfl
  · exact validName_take22 _ _ _ 's' 'n' (by decide) (by decide) (by decide)
      (by decide) (by decide)
  · exact validName_take22 _ _ _ 's' 'i' (by decide) (by decide) (by decide)
      (by decide) (by decide)
  · exact validName_take22 _ _ _ 's' 'e' (by decide) (by decide) (by decide)
      (by decide) (by decide)
  · exact validName_take22 _ _ _ 's' 's' (by decide) (by decide) (by decide)
      (by decide) (by decide)
  · exact validName_take22 _ _ _ 's' 't' (by decide) (by decide) (by decide)
      (by decide) (by decide)

/-- C9: the access-grant role-binding name targeted by every ensure-call
is a deterministic function of the owning workload's (kind, name) pair,
and it is injective across the five supported kinds: workloads of two
different kinds never map to the same binding name, whatever their
names. -/
theorem sidecar_role_binding_name_deterministic_injective :
    (∀ o1 o2 : WorkloadRef, o1.kind = o2.kind → o1.name = o2.name →
        EnsureSidecarRoleBindingName o1 = EnsureSidecarRoleBindingName o2) ∧
    (∀ o : WorkloadRef,
        EnsureSidecarRoleBindingName o = getSidecarRoleBindingName o.name o.kind) ∧
    (∀ k1 k2 : String, k1 ∈ supportedKinds → k2 ∈ supportedKinds → k1 ≠ k2 →
        ∀ n1 n2 : String,
          getSidecarRoleBindingName n1 k1 ≠ getSidecarRoleBindingName n2 k2) := by
  refine ⟨?_, fun o => rfl, ?_⟩
  · intro o1 o2 hk hn
    unfold EnsureSidecarRoleBindingName
    rw [hk, hn]
  · intro k1 k2 hk1 hk2 hne n1 n2 heq
    have e1 := bindingName_take22 n1 k1 hk1
    have e2 := bindingName_take22 n2 k2 hk2
    rw [heq, e2] at e1
    simp only [supportedKinds, List.mem_cons, List.not_mem_nil, or_false] at hk1 hk2
    rcases hk1 with rfl | rfl | rfl | rfl | rfl <;>
      rcases hk2 with rfl | rfl | rfl | rfl | rfl <;>
        first
          | exact hne rfl
          | exact absurd e1 (by decide)

/-- C9 witness: same workload always yields the same binding name, and a
deployment and a replica-set of the same name do not collide. -/
theorem sidecar_role_binding_name_deterministic_injective_witness :
    getSidecarRoleBindingName "web" "Deployment" ≠
      getSidecarRoleBindingName "web" "ReplicaSet" :=
  sidecar_role_binding_name_deterministic_injective.2.2 "Deployment" "ReplicaSet"
    (by decide) (by decide) (by decide) "web" "web"
